import Mathlib

/-!
Verification of the Intent Recognition Service (`src/main.py`).

The service is a thin FastAPI layer: `GET /` returns a fixed status payload;
`POST /recognize_intent` builds a two-message prompt from the request text,
invokes a remote chat model, parses the model's text as JSON, validates the
parsed value against the `IntentResponse` pydantic schema and returns it,
mapping failures to HTTP statuses.

The two external effects — the JSON parser (`json.loads`, standard library)
and the remote model invocation (`model.invoke`, provider SDK) — are not code
of this repository; the handler is therefore parameterised by a parse oracle
`loads : String → Except String Json` and a model oracle
`invoke : List Message → ModelOutcome`, and every theorem quantifies over
them.  Everything else (prompt construction, credential checks, schema
validation, response serialisation, the handler's control flow including its
exception handling) is translated directly from `src/main.py`.
-/

/-! ## JSON values

Result values of `json.loads`: null, booleans, numbers, strings, arrays and
objects.  Objects are association lists; values produced by `json.loads` come
from Python dicts, whose keys are unique and ordered by insertion. -/

inductive Json where
  | null
  | bool (b : Bool)
  | num (n : Int)
  | str (s : String)
  | arr (xs : List Json)
  | obj (kvs : List (String × Json))

/-! ## Data model (`src/main.py` lines 14-33)

`Slot` in the source is declared but unused by the response schema: an
`Intent` carries its slots directly as a `Dict[str, str]`.  We model that
dict as an association list preserving insertion order, which is how both
`json.loads` and pydantic `Dict[str, str]` behave. -/

/-- Intent and its slots (`class Intent`, lines 20-23): a name plus a
mapping from slot name to slot value. -/
structure Intent where
  name : String
  slots : List (String × String)
deriving DecidableEq

/-- Response containing several intents (`class IntentResponse`, lines 26-28). -/
structure IntentResponse where
  intents : List Intent
deriving DecidableEq

/-- Request model (`class IntentRequest`, lines 32-33). -/
structure IntentRequest where
  text : String
deriving DecidableEq

/-! ## Prompt builder (`create_intent_prompt`, lines 36-72)

`create_intent_prompt` builds a `ChatPromptTemplate` from a system template
and a human template `"{text}"`; the handler then calls
`prompt.invoke({"text": request.text})`.  Template formatting turns the
doubled braces of the source literal into single braces and substitutes the
request text into the human message.  We embed the composition
template-construction-then-invoke as one function of the request text. -/

inductive Role where
  | system
  | human
deriving DecidableEq

structure Message where
  role : Role
  content : String
deriving DecidableEq

/-- Verbatim example input sentence appearing in the system template
(line 42) and reused by the end-to-end example. -/
def example_input_text : String :=
  "我要去深圳会展中心，请将该位置定位发给微信好友张三，并帮我打个车到那里"

/-- The formatted system message: the source's `system_template`
(lines 38-62) with the f-string escapes `\x7b\x7b`/`\x7d\x7d` collapsed to
single braces, exactly as `ChatPromptTemplate` formatting produces.
Whitespace (the 4-space continuation indent of the Python triple-quoted
literal) is reproduced byte for byte. -/
def intent_system_message : String :=
  "你是一个意图识别助手。分析用户输入并识别其中包含的意图和相关信息。\n    将结果格式化为JSON，包含意图名称和相关槽位信息,注意输出不要多余内容只要示例中 json 部分。\n\n    示例输入：\n    \"我要去深圳会展中心，请将该位置定位发给微信好友张三，并帮我打个车到那里\"\n\n    示例输出：\n    \x7b\n        \"intents\": [\n            \x7b\n                \"name\": \"send_location\",\n                \"slots\": \x7b\n                    \"location\": \"深圳会展中心\",\n                    \"platform\": \"微信\",\n                    \"recipient\": \"张三\"\n                \x7d\n            \x7d,\n            \x7b\n                \"name\": \"call_taxi\",\n                \"slots\": \x7b\n                    \"destination\": \"深圳会展中心\"\n                \x7d\n            \x7d\n        ]\n    \x7d"

/-- The worked example's output block inside the system message
(lines 45-62 of the source, braces unescaped). -/
def example_output_text : String :=
  "\x7b\n        \"intents\": [\n            \x7b\n                \"name\": \"send_location\",\n                \"slots\": \x7b\n                    \"location\": \"深圳会展中心\",\n                    \"platform\": \"微信\",\n                    \"recipient\": \"张三\"\n                \x7d\n            \x7d,\n            \x7b\n                \"name\": \"call_taxi\",\n                \"slots\": \x7b\n                    \"destination\": \"深圳会展中心\"\n                \x7d\n            \x7d\n        ]\n    \x7d"

/-- Prompt construction composed with `prompt.invoke({"text": text})`
(lines 36-72 and 116): a fixed system message followed by a human message
equal to the request text. -/
def create_intent_prompt (text : String) : List Message :=
  [⟨Role.system, intent_system_message⟩, ⟨Role.human, text⟩]

/-! ## Startup configuration (`init_model`, lines 76-99)

`init_model` reads the two credential environment variables, raises
`ValueError` if either is missing (Python truthiness: `None` and the empty
string are both falsy), and otherwise constructs the `ChatGroq` client.
It runs at module import time (`model = init_model()`, line 99), so a raised
error aborts startup before the app can serve requests. -/

/-- Environment as seen by `os.getenv`: each variable is either unset
(`none`) or set to a string (possibly empty). -/
structure Env where
  langchain_api_key : Option String
  groq_api_key : Option String
deriving DecidableEq

/-- Python truthiness of an `os.getenv` result: `None` and `""` are falsy,
every other string is truthy (`if not langchain_api_key`, line 85). -/
def pyTruthy : Option String → Bool
  | none => false
  | some s => !(s == "")

/-- The provider client constructed on successful startup (line 95). -/
structure ChatGroq where
  model : String
deriving DecidableEq

/-- Translation of `init_model` (lines 76-95): check `LANGCHAIN_API_KEY`
then `GROQ_API_KEY` by truthiness, raising `ValueError` with the respective
message; on success return the `ChatGroq` client.  The `print` calls and the
re-export of the keys into `os.environ` (lines 81-93) affect no claim. -/
def init_model (env : Env) : Except String ChatGroq :=
  let langchain_api_key := env.langchain_api_key
  let groq_api_key := env.groq_api_key
  if !pyTruthy langchain_api_key then
    .error "LANGCHAIN_API_KEY environment variable is not set"
  else if !pyTruthy groq_api_key then
    .error "GROQ_API_KEY environment variable is not set"
  else
    .ok ⟨"llama-3.2-90b-vision-preview"⟩

/-- Module-level globals built at import time (lines 98-100): the model
client and the prompt template (represented by its fixed system message). -/
structure AppGlobals where
  model : ChatGroq
  prompt_system : String
deriving DecidableEq

/-- Module import (lines 99-100): `model = init_model()` runs first and any
error it raises aborts startup; only then is the prompt template built. -/
def module_init (env : Env) : Except String AppGlobals :=
  match init_model env with
  | .error e => .error e
  | .ok model => .ok ⟨model, intent_system_message⟩

/-! ## Schema validation (`IntentResponse(**result)`, line 125)

Pydantic validation of the parsed JSON value against `IntentResponse`:
the value must be an object (otherwise `**result` raises `TypeError`),
its `intents` field must be present and be an array, and every element must
be an object with a string `name` and a `slots` object all of whose values
are strings.  Extra keys are ignored (pydantic's default).  Pydantic's exact
error strings are irrelevant to every claim — what matters is which inputs
fail and that the handler forwards the raised message verbatim — so the
messages below are descriptive stand-ins. -/

def validateSlots : List (String × Json) → Except String (List (String × String))
  | [] => .ok []
  | (k, Json.str v) :: rest =>
      match validateSlots rest with
      | .error e => .error e
      | .ok ps => .ok ((k, v) :: ps)
  | (k, _) :: _ => .error ("Input should be a valid string: slots value at key " ++ k)

def Intent.validate : Json → Except String Intent
  | .obj kvs =>
      match kvs.lookup "name", kvs.lookup "slots" with
      | some (Json.str n), some (Json.obj sl) =>
          match validateSlots sl with
          | .error e => .error e
          | .ok ps => .ok ⟨n, ps⟩
      | some (Json.str _), some _ => .error "Input should be a valid dictionary: slots"
      | some (Json.str _), none => .error "Field required: slots"
      | some _, _ => .error "Input should be a valid string: name"
      | none, _ => .error "Field required: name"
  | _ => .error "Input should be a valid dictionary: intent"

def validateIntentList : List Json → Except String (List Intent)
  | [] => .ok []
  | item :: rest =>
      match Intent.validate item with
      | .error e => .error e
      | .ok t =>
          match validateIntentList rest with
          | .error e => .error e
          | .ok ts => .ok (t :: ts)

def IntentResponse.validate : Json → Except String IntentResponse
  | .obj kvs =>
      match kvs.lookup "intents" with
      | some (Json.arr items) =>
          match validateIntentList items with
          | .error e => .error e
          | .ok ts => .ok ⟨ts⟩
      | some _ => .error "Input should be a valid list: intents"
      | none => .error "Field required: intents"
  | _ => .error "argument after ** must be a mapping"

/-! ## Response serialisation (`response_model=IntentResponse`, line 112)

FastAPI serialises the returned `IntentResponse` back to JSON: field order
is declaration order, dict entries keep insertion order. -/

def encodeSlots (slots : List (String × String)) : Json :=
  .obj (slots.map fun p => (p.1, Json.str p.2))

def encodeIntent (t : Intent) : Json :=
  .obj [("name", Json.str t.name), ("slots", encodeSlots t.slots)]

def encodeIntentResponse (r : IntentResponse) : Json :=
  .obj [("intents", Json.arr (r.intents.map encodeIntent))]

/-! ## The request handler (`recognize_intent`, lines 112-130)

Control flow of the Python handler:

  try:
      prompt_value = prompt.invoke({"text": request.text})   # line 116
      response = model.invoke(prompt_value)                  # line 118
      (line 121 performs the local statement:  import json)
      result = json.loads(response.content)                  # line 122
      intent_response = IntentResponse(**result)             # line 125
      return intent_response                                 # line 126
  except json.JSONDecodeError as e:   -> HTTPException 422   # lines 127-128
  except Exception as e:              -> HTTPException 500   # lines 129-130

One control-flow subtlety is load-bearing.  `import json` at line 121 makes
`json` a function-local name, bound only once line 121 has executed.  If
`model.invoke` at line 118 raises (a provider or network error), the
interpreter evaluates the header `except json.JSONDecodeError` while `json`
is still unbound, which raises `UnboundLocalError`; per the Python language
reference (the try statement), an exception raised while evaluating an
except-clause header cancels the search for a handler, so the remaining
`except Exception` clause is never consulted and the `UnboundLocalError`
escapes the handler.  Starlette's server-error middleware then answers with
a plain-text 500 "Internal Server Error" body, not an HTTPException detail.
Exceptions raised at or after line 122 see `json` bound and are dispatched
normally. -/

/-- Outcome of `model.invoke`: either a chat reply whose `.content` is a
string, or a raised provider/network/auth error with its message. -/
inductive ModelOutcome where
  | reply (content : String)
  | providerError (msg : String)

/-- What the handler produces, before the framework turns it into an HTTP
response: a validated body (HTTP 200), a raised `HTTPException`, or an
exception escaping the handler entirely. -/
inductive HandlerResult where
  | success (body : IntentResponse)
  | httpError (status : Nat) (detail : String)
  | unhandled (msg : String)
deriving DecidableEq

/-- The message of the `UnboundLocalError` raised by the header
`except json.JSONDecodeError` when `json` is not yet bound. -/
def unboundLocalJsonMsg : String :=
  "UnboundLocalError: cannot access local variable json where it is not associated with a value"

/-- Translation of `recognize_intent` (lines 112-130), parameterised by the
`json.loads` oracle and the `model.invoke` oracle.  Note the
`providerError` branch: the raised provider error reaches the `except`
headers before `import json` has run, so it escapes as an
`UnboundLocalError` instead of becoming an HTTPException (see the section
comment above). -/
def recognize_intent (loads : String → Except String Json)
    (invoke : List Message → ModelOutcome) (request : IntentRequest) :
    HandlerResult :=
  let prompt_value := create_intent_prompt request.text
  match invoke prompt_value with
  | .providerError _ => .unhandled unboundLocalJsonMsg
  | .reply content =>
      match loads content with
      | .error _ => .httpError 422 "Invalid JSON response from model"
      | .ok result =>
          match IntentResponse.validate result with
          | .error e => .httpError 500 e
          | .ok intent_response => .success intent_response

/-! ## HTTP layer

FastAPI renders a returned model as a 200 JSON body, an `HTTPException`
as its status with body `{"detail": ...}`, and an unhandled exception as a
plain-text 500 "Internal Server Error" (Starlette server-error middleware,
debug off). -/

inductive ResponseBody where
  | json (j : Json)
  | text (s : String)

structure HttpResponse where
  status : Nat
  body : ResponseBody

def toHttpResponse : HandlerResult → HttpResponse
  | .success r => ⟨200, .json (encodeIntentResponse r)⟩
  | .httpError status detail => ⟨status, .json (.obj [("detail", Json.str detail)])⟩
  | .unhandled _ => ⟨500, .text "Internal Server Error"⟩

/-- Translation of the `root` endpoint (lines 103-109): a fixed dict. -/
def root : Json :=
  .obj [("status", Json.str "ok"),
        ("message", Json.str "Intent Recognition API is running"),
        ("version", Json.str "1.0.0")]

/-- `GET /` as an HTTP response: FastAPI renders the returned dict as a
200 JSON body. -/
def root_response : HttpResponse := ⟨200, .json root⟩

/-! ## State-passing form of the handler

`recognize_intent` reads two module-level globals, `model` and `prompt`
(lines 98-100), and assigns to neither (there is no `global` statement and
no attribute mutation in the handler body).  To state frame properties we
thread the globals explicitly: the state-passing handler reads the prompt
template and the model client from the state and returns the state it was
given, which is exactly what a handler body with no writes does. -/

def recognize_intent_st (loads : String → Except String Json)
    (invoke : ChatGroq → List Message → ModelOutcome)
    (s : AppGlobals) (request : IntentRequest) :
    HandlerResult × AppGlobals :=
  let prompt_value := [⟨Role.system, s.prompt_system⟩, ⟨Role.human, request.text⟩]
  match invoke s.model prompt_value with
  | .providerError _ => (.unhandled unboundLocalJsonMsg, s)
  | .reply content =>
      match loads content with
      | .error _ => (.httpError 422 "Invalid JSON response from model", s)
      | .ok result =>
          match IntentResponse.validate result with
          | .error e => (.httpError 500 e, s)
          | .ok intent_response => (.success intent_response, s)

/-! ## Exact response shape and key-order-insensitive equality

`exactResponseShape` holds of the JSON values that carry precisely the
`IntentResponse` structure and nothing more: a single-key object
`{"intents": [...]}` whose elements each have exactly the keys `name`
(a string) and `slots` (an object with string values), in either key order.
`sortKeysJ` sorts every object's keys recursively, so two JSON values are
equal up to key order iff their normal forms are equal. -/

def allStringValues : List (String × Json) → Bool
  | [] => true
  | (_, Json.str _) :: rest => allStringValues rest
  | _ => false

def exactIntentShape : Json → Bool
  | .obj [("name", Json.str _), ("slots", Json.obj sl)] => allStringValues sl
  | .obj [("slots", Json.obj sl), ("name", Json.str _)] => allStringValues sl
  | _ => false

def exactResponseShape : Json → Bool
  | .obj [("intents", Json.arr items)] => items.all exactIntentShape
  | _ => false

/-- Strict lexicographic order on character lists, used to fix one
canonical key order. -/
def charListLt : List Char → List Char → Bool
  | [], [] => false
  | [], _ :: _ => true
  | _ :: _, [] => false
  | a :: as, b :: bs => if a < b then true else if b < a then false else charListLt as bs

def keyLt (a b : String) : Bool := charListLt a.data b.data

def insertPair (p : String × Json) : List (String × Json) → List (String × Json)
  | [] => [p]
  | q :: qs => if keyLt q.1 p.1 then q :: insertPair p qs else p :: q :: qs

mutual
/-- Normal form under reordering of object keys: every object's entries are
insertion-sorted by key, recursively. -/
def sortKeysJ : Json → Json
  | .null => .null
  | .bool b => .bool b
  | .num n => .num n
  | .str s => .str s
  | .arr xs => .arr (sortKeysList xs)
  | .obj kvs => .obj (sortKeysPairs kvs)

def sortKeysList : List Json → List Json
  | [] => []
  | x :: xs => sortKeysJ x :: sortKeysList xs

def sortKeysPairs : List (String × Json) → List (String × Json)
  | [] => []
  | (k, v) :: kvs => insertPair (k, sortKeysJ v) (sortKeysPairs kvs)
end

/-! ## Helper lemmas -/

theorem keyLt_name_slots : keyLt "name" "slots" = true := by decide

theorem keyLt_slots_name : keyLt "slots" "name" = false := by decide

/-- Sorting a two-entry object is insensitive to the entry order. -/
theorem sortKeysPairs_swap (a b : Json) :
    sortKeysPairs [("slots", b), ("name", a)] =
      sortKeysPairs [("name", a), ("slots", b)] := by
  simp [sortKeysPairs, insertPair, keyLt_name_slots, keyLt_slots_name]

/-- A slots object whose values are all strings validates, and encoding the
validated association list reproduces the object verbatim. -/
theorem validateSlots_allString (sl : List (String × Json))
    (h : allStringValues sl = true) :
    ∃ ps, validateSlots sl = .ok ps ∧
      ps.map (fun p => (p.1, Json.str p.2)) = sl := by
  induction sl with
  | nil => exact ⟨[], rfl, rfl⟩
  | cons hd tl ih =>
      obtain ⟨k, v⟩ := hd
      cases v with
      | str s =>
          simp only [allStringValues] at h
          obtain ⟨ps, hps, hmap⟩ := ih h
          refine ⟨(k, s) :: ps, ?_, ?_⟩
          · simp [validateSlots, hps]
          · simp [hmap]
      | null => simp [allStringValues] at h
      | bool b => simp [allStringValues] at h
      | num n => simp [allStringValues] at h
      | arr xs => simp [allStringValues] at h
      | obj kvs => simp [allStringValues] at h

/-- An element of exact intent shape validates, and its encoding agrees with
the element up to key order. -/
theorem exactIntentShape_validate (item : Json)
    (h : exactIntentShape item = true) :
    ∃ t, Intent.validate item = .ok t ∧
      sortKeysJ (encodeIntent t) = sortKeysJ item := by
  unfold exactIntentShape at h
  split at h
  next n sl =>
    obtain ⟨ps, hps, hmap⟩ := validateSlots_allString sl h
    refine ⟨⟨n, ps⟩, ?_, ?_⟩
    · simp [Intent.validate, List.lookup, hps]
    · simp [encodeIntent, encodeSlots, hmap]
  next sl n =>
    obtain ⟨ps, hps, hmap⟩ := validateSlots_allString sl h
    refine ⟨⟨n, ps⟩, ?_, ?_⟩
    · simp [Intent.validate, List.lookup, hps]
    · simp only [encodeIntent, encodeSlots, hmap, sortKeysJ, sortKeysPairs_swap]
  next => exact absurd h (by simp)

/-- A list of exact-shape elements validates in order, and encoding the
result agrees with the original list up to key order. -/
theorem validateIntentList_shape (items : List Json)
    (h : items.all exactIntentShape = true) :
    ∃ ts, validateIntentList items = .ok ts ∧
      sortKeysList (ts.map encodeIntent) = sortKeysList items := by
  induction items with
  | nil => exact ⟨[], rfl, rfl⟩
  | cons x xs ih =>
      rw [List.all_cons, Bool.and_eq_true] at h
      obtain ⟨t, ht, hsort⟩ := exactIntentShape_validate x h.1
      obtain ⟨ts, hts, hsorts⟩ := ih h.2
      refine ⟨t :: ts, ?_, ?_⟩
      · simp [validateIntentList, ht, hts]
      · simp [sortKeysList, hsort, hsorts]

/-! ## Claim theorems -/

/-- C1: for every request text and every model reply whose content parses as
JSON of exactly the `IntentResponse` shape, `POST /recognize_intent` returns
HTTP 200 and its body is that JSON structure up to object key order. -/
theorem recognize_intent_valid_shape_roundtrip
    (loads : String → Except String Json) (invoke : List Message → ModelOutcome)
    (request : IntentRequest) (content : String) (j : Json)
    (hm : invoke (create_intent_prompt request.text) = ModelOutcome.reply content)
    (hl : loads content = .ok j)
    (hs : exactResponseShape j = true) :
    ∃ r : IntentResponse,
      recognize_intent loads invoke request = .success r ∧
      toHttpResponse (recognize_intent loads invoke request) =
        ⟨200, ResponseBody.json (encodeIntentResponse r)⟩ ∧
      sortKeysJ (encodeIntentResponse r) = sortKeysJ j := by
  unfold exactResponseShape at hs
  split at hs
  next items =>
    obtain ⟨ts, hts, hsorts⟩ := validateIntentList_shape items hs
    have hval : IntentResponse.validate (Json.obj [("intents", Json.arr items)]) =
        .ok ⟨ts⟩ := by
      simp [IntentResponse.validate, List.lookup, hts]
    have h1 : recognize_intent loads invoke request = .success ⟨ts⟩ := by
      simp [recognize_intent, hm, hl, hval]
    refine ⟨⟨ts⟩, h1, by rw [h1]; rfl, ?_⟩
    simp [encodeIntentResponse, sortKeysJ, sortKeysPairs, insertPair, hsorts]
  next => exact absurd hs (by simp)

/-- Witness for C1: a concrete parse oracle, model oracle and request with a
shape-exact reply (keys of the second intent deliberately in swapped order),
at which the theorem applies. -/
theorem recognize_intent_valid_shape_roundtrip_witness :
    ∃ r : IntentResponse,
      recognize_intent (fun _ => Except.ok (Json.obj [("intents", Json.arr
          [Json.obj [("name", Json.str "send_location"),
                     ("slots", Json.obj [("location", Json.str "深圳会展中心")])],
           Json.obj [("slots", Json.obj [("destination", Json.str "深圳会展中心")]),
                     ("name", Json.str "call_taxi")]])]))
        (fun _ => ModelOutcome.reply "raw model text") ⟨"打车"⟩ = .success r ∧
      toHttpResponse (recognize_intent (fun _ => Except.ok (Json.obj [("intents", Json.arr
          [Json.obj [("name", Json.str "send_location"),
                     ("slots", Json.obj [("location", Json.str "深圳会展中心")])],
           Json.obj [("slots", Json.obj [("destination", Json.str "深圳会展中心")]),
                     ("name", Json.str "call_taxi")]])]))
        (fun _ => ModelOutcome.reply "raw model text") ⟨"打车"⟩) =
        ⟨200, ResponseBody.json (encodeIntentResponse r)⟩ ∧
      sortKeysJ (encodeIntentResponse r) = sortKeysJ (Json.obj [("intents", Json.arr
          [Json.obj [("name", Json.str "send_location"),
                     ("slots", Json.obj [("location", Json.str "深圳会展中心")])],
           Json.obj [("slots", Json.obj [("destination", Json.str "深圳会展中心")]),
                     ("name", Json.str "call_taxi")]])]) :=
  recognize_intent_valid_shape_roundtrip _ _ ⟨"打车"⟩ "raw model text" _ rfl rfl (by decide)

/-- C2: whenever the model's returned text is not parseable as JSON, the
endpoint answers 422 with detail exactly "Invalid JSON response from model". -/
theorem recognize_intent_unparseable_422
    (loads : String → Except String Json) (invoke : List Message → ModelOutcome)
    (request : IntentRequest) (content e : String)
    (hm : invoke (create_intent_prompt request.text) = ModelOutcome.reply content)
    (hl : loads content = .error e) :
    recognize_intent loads invoke request =
      .httpError 422 "Invalid JSON response from model" ∧
    toHttpResponse (recognize_intent loads invoke request) =
      ⟨422, ResponseBody.json (.obj [("detail",
        Json.str "Invalid JSON response from model")])⟩ := by
  have h1 : recognize_intent loads invoke request =
      .httpError 422 "Invalid JSON response from model" := by
    simp [recognize_intent, hm, hl]
  exact ⟨h1, by rw [h1]; rfl⟩

/-- Witness for C2: the model answers the literal text "not json" and the
parse oracle rejects it as `json.loads` would. -/
theorem recognize_intent_unparseable_422_witness :
    recognize_intent (fun _ => Except.error "Expecting value: line 1 column 1 (char 0)")
      (fun _ => ModelOutcome.reply "not json") ⟨"你好"⟩ =
      .httpError 422 "Invalid JSON response from model" ∧
    toHttpResponse (recognize_intent
        (fun _ => Except.error "Expecting value: line 1 column 1 (char 0)")
        (fun _ => ModelOutcome.reply "not json") ⟨"你好"⟩) =
      ⟨422, ResponseBody.json (.obj [("detail",
        Json.str "Invalid JSON response from model")])⟩ :=
  recognize_intent_unparseable_422 _ _ ⟨"你好"⟩ "not json"
    "Expecting value: line 1 column 1 (char 0)" rfl rfl

/-- C3 (code bug, provider-error half): when the model invocation raises, the
raised error reaches the `except json.JSONDecodeError` header before the
statement `import json` has executed, the header raises `UnboundLocalError`,
the `except Exception` clause is skipped, and the framework answers with a
plain-text 500 "Internal Server Error" — the response is never an
`HTTPException` whose detail carries the provider error message, contrary to
the claim. -/
theorem recognize_intent_provider_error_unhandled
    (loads : String → Except String Json) (invoke : List Message → ModelOutcome)
    (request : IntentRequest) (msg : String)
    (hm : invoke (create_intent_prompt request.text) = ModelOutcome.providerError msg) :
    recognize_intent loads invoke request = .unhandled unboundLocalJsonMsg ∧
    toHttpResponse (recognize_intent loads invoke request) =
      ⟨500, ResponseBody.text "Internal Server Error"⟩ ∧
    ∀ detail : String,
      recognize_intent loads invoke request ≠ .httpError 500 detail := by
  have h1 : recognize_intent loads invoke request = .unhandled unboundLocalJsonMsg := by
    simp [recognize_intent, hm]
  refine ⟨h1, by rw [h1]; rfl, fun detail => by rw [h1]; intro hcontra; cases hcontra⟩

/-- Witness for C3: a concrete provider failure ("connection refused") whose
message does not appear in any HTTPException detail. -/
theorem recognize_intent_provider_error_unhandled_witness :
    recognize_intent (fun _ => Except.error "unused")
      (fun _ => ModelOutcome.providerError "connection refused") ⟨"hi"⟩ =
      .unhandled unboundLocalJsonMsg ∧
    toHttpResponse (recognize_intent (fun _ => Except.error "unused")
        (fun _ => ModelOutcome.providerError "connection refused") ⟨"hi"⟩) =
      ⟨500, ResponseBody.text "Internal Server Error"⟩ ∧
    ∀ detail : String,
      recognize_intent (fun _ => Except.error "unused")
        (fun _ => ModelOutcome.providerError "connection refused") ⟨"hi"⟩ ≠
        .httpError 500 detail :=
  recognize_intent_provider_error_unhandled _ _ ⟨"hi"⟩ "connection refused" rfl

/-- Schema-mismatch half of the 500 contract (holds as specified): valid JSON
that fails `IntentResponse` validation is answered with HTTP 500 whose detail
is exactly the raised validation message. -/
theorem recognize_intent_schema_mismatch_500
    (loads : String → Except String Json) (invoke : List Message → ModelOutcome)
    (request : IntentRequest) (content e : String) (j : Json)
    (hm : invoke (create_intent_prompt request.text) = ModelOutcome.reply content)
    (hl : loads content = .ok j)
    (hv : IntentResponse.validate j = .error e) :
    recognize_intent loads invoke request = .httpError 500 e ∧
    toHttpResponse (recognize_intent loads invoke request) =
      ⟨500, ResponseBody.json (.obj [("detail", Json.str e)])⟩ := by
  have h1 : recognize_intent loads invoke request = .httpError 500 e := by
    simp [recognize_intent, hm, hl, hv]
  exact ⟨h1, by rw [h1]; rfl⟩

/-- Concrete instance of the schema-mismatch half: valid JSON missing the
`intents` key is answered 500. -/
theorem recognize_intent_schema_mismatch_500_example :
    recognize_intent (fun _ => Except.ok (Json.obj [("answer", Json.str "42")]))
      (fun _ => ModelOutcome.reply "ok json, wrong shape") ⟨"hi"⟩ =
      .httpError 500 "Field required: intents" ∧
    toHttpResponse (recognize_intent
        (fun _ => Except.ok (Json.obj [("answer", Json.str "42")]))
        (fun _ => ModelOutcome.reply "ok json, wrong shape") ⟨"hi"⟩) =
      ⟨500, ResponseBody.json (.obj [("detail",
        Json.str "Field required: intents")])⟩ :=
  recognize_intent_schema_mismatch_500 _ _ ⟨"hi"⟩ "ok json, wrong shape"
    "Field required: intents" (Json.obj [("answer", Json.str "42")]) rfl rfl rfl

/-- C4: the prompt builder is a pure function of the request text, producing
exactly two messages — the fixed system instruction, which contains the
worked input-to-output example verbatim, followed by a human message whose
content is the request text itself.  Purity and absence of state are
immediate: the builder is a function of the text alone, so equal inputs give
equal message lists. -/
theorem create_intent_prompt_pure (text : String) :
    create_intent_prompt text =
      [⟨Role.system, intent_system_message⟩, ⟨Role.human, text⟩] ∧
    (create_intent_prompt text).length = 2 ∧
    (create_intent_prompt text).head? = some ⟨Role.system, intent_system_message⟩ ∧
    (create_intent_prompt text)[1]? = some ⟨Role.human, text⟩ ∧
    intent_system_message =
      "你是一个意图识别助手。分析用户输入并识别其中包含的意图和相关信息。\n    将结果格式化为JSON，包含意图名称和相关槽位信息,注意输出不要多余内容只要示例中 json 部分。\n\n    示例输入：\n    \"" ++
        example_input_text ++ "\"\n\n    示例输出：\n    " ++ example_output_text :=
  ⟨rfl, rfl, rfl, rfl, rfl⟩

/-- C5: `GET /` always answers 200 with exactly the fixed status payload;
`root` reads no configuration, no environment and no external dependency. -/
theorem root_endpoint_fixed :
    root_response.status = 200 ∧
    root_response.body = ResponseBody.json (Json.obj
      [("status", Json.str "ok"),
       ("message", Json.str "Intent Recognition API is running"),
       ("version", Json.str "1.0.0")]) :=
  ⟨rfl, rfl⟩

/-- C6: if either credential environment variable is absent, module
initialisation fails with an error before the app exists, so missing
credentials are a fatal startup condition. -/
theorem missing_credential_fatal (env : Env)
    (h : env.langchain_api_key = none ∨ env.groq_api_key = none) :
    ∃ msg, module_init env = .error msg := by
  obtain ⟨l, g⟩ := env
  have hnone : pyTruthy none = false := rfl
  rcases h with h | h
  · cases h
    exact ⟨"LANGCHAIN_API_KEY environment variable is not set",
      by simp [module_init, init_model, hnone]⟩
  · cases h
    cases hl : pyTruthy l
    · exact ⟨"LANGCHAIN_API_KEY environment variable is not set",
        by simp [module_init, init_model, hl]⟩
    · exact ⟨"GROQ_API_KEY environment variable is not set",
        by simp [module_init, init_model, hl, hnone]⟩

/-- Witness for C6: an environment with `LANGCHAIN_API_KEY` unset and
`GROQ_API_KEY` set. -/
theorem missing_credential_fatal_witness :
    ∃ msg, module_init ⟨none, some "gsk_demo"⟩ = .error msg :=
  missing_credential_fatal ⟨none, some "gsk_demo"⟩ (Or.inl rfl)

/-- C7: validation maps the model's `intents` array elementwise and in
order, imposing no uniqueness condition; in particular, a list whose
elements each validate yields exactly the correspondingly ordered intent
list, duplicates included. -/
theorem validate_preserves_order_and_duplicates (items : List Json) (ts : List Intent)
    (h : List.Forall₂ (fun item t => Intent.validate item = .ok t) items ts) :
    IntentResponse.validate (Json.obj [("intents", Json.arr items)]) = .ok ⟨ts⟩ := by
  have hlist : validateIntentList items = .ok ts := by
    induction h with
    | nil => rfl
    | cons h1 h2 ih => simp [validateIntentList, h1, ih]
  simp [IntentResponse.validate, List.lookup, hlist]

/-- Witness for C7: the same intent element twice validates to the same
intent twice, in order — duplicates are allowed. -/
theorem validate_preserves_order_and_duplicates_witness :
    IntentResponse.validate (Json.obj [("intents", Json.arr
      [Json.obj [("name", Json.str "call_taxi"),
                 ("slots", Json.obj [("destination", Json.str "深圳会展中心")])],
       Json.obj [("name", Json.str "call_taxi"),
                 ("slots", Json.obj [("destination", Json.str "深圳会展中心")])]])]) =
      .ok ⟨[⟨"call_taxi", [("destination", "深圳会展中心")]⟩,
            ⟨"call_taxi", [("destination", "深圳会展中心")]⟩]⟩ :=
  validate_preserves_order_and_duplicates _ _
    (List.Forall₂.cons rfl (List.Forall₂.cons rfl List.Forall₂.nil))

/-- The documented example output of the system prompt, as the JSON value
`json.loads` yields for it (source lines 45-62). -/
def example_model_json : Json :=
  .obj [("intents", Json.arr
    [Json.obj [("name", Json.str "send_location"),
               ("slots", Json.obj [("location", Json.str "深圳会展中心"),
                                   ("platform", Json.str "微信"),
                                   ("recipient", Json.str "张三")])],
     Json.obj [("name", Json.str "call_taxi"),
               ("slots", Json.obj [("destination", Json.str "深圳会展中心")])]])]

/-- The `IntentResponse` value the documented example validates to. -/
def example_intent_response : IntentResponse :=
  ⟨[⟨"send_location",
     [("location", "深圳会展中心"), ("platform", "微信"), ("recipient", "张三")]⟩,
    ⟨"call_taxi", [("destination", "深圳会展中心")]⟩]⟩

/-- C8: on the documented example input, a model reply carrying the
documented example JSON yields exactly the two documented intents —
`send_location` with slot keys location/platform/recipient and `call_taxi`
with slot key destination. -/
theorem example_end_to_end
    (loads : String → Except String Json) (invoke : List Message → ModelOutcome)
    (content : String)
    (hm : invoke (create_intent_prompt example_input_text) = ModelOutcome.reply content)
    (hl : loads content = .ok example_model_json) :
    recognize_intent loads invoke ⟨example_input_text⟩ =
      .success example_intent_response ∧
    example_intent_response.intents.map Intent.name = ["send_location", "call_taxi"] ∧
    (example_intent_response.intents.map fun t => t.slots.map Prod.fst) =
      [["location", "platform", "recipient"], ["destination"]] := by
  refine ⟨?_, rfl, rfl⟩
  have hval : IntentResponse.validate example_model_json = .ok example_intent_response := rfl
  simp [recognize_intent, hm, hl, hval]

/-- Witness for C8: concrete oracles delivering the documented example. -/
theorem example_end_to_end_witness :
    recognize_intent (fun _ => Except.ok example_model_json)
      (fun _ => ModelOutcome.reply "documented example JSON") ⟨example_input_text⟩ =
      .success example_intent_response ∧
    example_intent_response.intents.map Intent.name = ["send_location", "call_taxi"] ∧
    (example_intent_response.intents.map fun t => t.slots.map Prod.fst) =
      [["location", "platform", "recipient"], ["destination"]] :=
  example_end_to_end _ _ "documented example JSON" rfl rfl

/-- C9: the handler mutates no module-level state — threading the globals
explicitly, it returns them unchanged, and consequently the outcome of any
request is independent of which requests were handled before it. -/
theorem recognize_intent_no_mutation
    (loads : String → Except String Json)
    (invoke : ChatGroq → List Message → ModelOutcome)
    (s : AppGlobals) (r1 r2 : IntentRequest) :
    (recognize_intent_st loads invoke s r1).2 = s ∧
    recognize_intent_st loads invoke (recognize_intent_st loads invoke s r1).2 r2 =
      recognize_intent_st loads invoke s r2 := by
  have hsnd : ∀ r : IntentRequest, (recognize_intent_st loads invoke s r).2 = s := by
    intro r
    cases h : invoke s.model [⟨Role.system, s.prompt_system⟩, ⟨Role.human, r.text⟩] with
    | providerError m => simp [recognize_intent_st, h]
    | reply c =>
        cases hld : loads c with
        | error e => simp [recognize_intent_st, h, hld]
        | ok j =>
            cases hv : IntentResponse.validate j with
            | error e => simp [recognize_intent_st, h, hld, hv]
            | ok resp => simp [recognize_intent_st, h, hld, hv]
  exact ⟨hsnd r1, by rw [hsnd r1]⟩

/-- C10: a credential set to the empty string is treated exactly like an
absent one — `init_model` tests the variables by Python truthiness, so both
fail startup with the same fatal error. -/
theorem empty_credential_equals_missing :
    (∀ g : Option String,
      init_model ⟨some "", g⟩ = init_model ⟨none, g⟩ ∧
      init_model ⟨some "", g⟩ =
        .error "LANGCHAIN_API_KEY environment variable is not set") ∧
    (∀ l : Option String, init_model ⟨l, some ""⟩ = init_model ⟨l, none⟩) ∧
    init_model ⟨some "lsv2_demo", some ""⟩ =
      .error "GROQ_API_KEY environment variable is not set" := by
  refine ⟨fun g => ⟨?_, ?_⟩, fun l => ?_, ?_⟩
  · rfl
  · rfl
  · cases hl : pyTruthy l with
    | false => simp [init_model, hl]
    | true => simp [init_model, hl]; rfl
  · rfl
